import Mathlib

/-!
Shallow embedding of `src/certs.rs` (odd-box-webui): the dynamic TLS
certificate resolver with two cache tiers (lets-encrypt / self-signed),
an on-disk per-hostname store, self-signed generation, and PEM codecs.

Modelling choices:
* PEM files are lists of abstract sections; a section is a certificate,
  a PKCS8 private key, some other well-formed section, or a malformed
  block.  `rustls_pemfile::certs` / `pkcs8_private_keys` are modelled as
  iterators yielding `Except` items per matching section (malformed
  sections yield an error item, non-matching well-formed sections are
  skipped), exactly the item stream the repository code consumes.
* The filesystem is an association list from path to PEM file, plus a
  directory list and two fault sets driving `std::fs::write` and
  `create_dir_all` failures.
* `rcgen::generate_simple_self_signed` and
  `aws_lc_rs::sign::any_supported_type` are external-crate oracles,
  carried in an `Env` record.
* DER payloads and signing keys are abstract `Nat` tokens.
-/

namespace OddBox

/-- One PEM section, as classified by the rustls-pemfile iterators. -/
inductive PemSection where
  | cert (der : Nat)
  | pkcs8Key (der : Nat)
  | otherSection
  | malformed
deriving DecidableEq, Repr

/-- A PEM file is a sequence of sections. -/
abbrev PemFile := List PemSection

/-- Association-list lookup (models `DashMap::get` / file lookup). -/
def lookupA {α : Type} : List (String × α) → String → Option α
  | [], _ => none
  | (k, v) :: rest, q => if k = q then some v else lookupA rest q

/-- Association-list insert; a fresh binding shadows any older one,
    giving the replace-on-insert observable behaviour of `DashMap::insert`. -/
def insertA {α : Type} (m : List (String × α)) (k : String) (v : α) :
    List (String × α) :=
  (k, v) :: m

/-- Filesystem state: files (path to PEM content), created directories,
    and the paths at which `std::fs::write` / `create_dir_all` fail. -/
structure FileSystem where
  files : List (String × PemFile)
  dirs : List String
  failWrites : List String
  failDirs : List String
deriving DecidableEq, Repr

def FileSystem.read (fs : FileSystem) (p : String) : Option PemFile :=
  lookupA fs.files p

/-- `std::fs::metadata(p).is_ok()` for a file path. -/
def FileSystem.fileExists (fs : FileSystem) (p : String) : Bool :=
  (fs.read p).isSome

/-- `std::fs::write`: the result is discarded by the caller in the
    source, so a failing write simply leaves the filesystem unchanged. -/
def FileSystem.write (fs : FileSystem) (p : String) (c : PemFile) :
    FileSystem :=
  if fs.failWrites.contains p then fs
  else { fs with files := insertA fs.files p c }

/-- `std::fs::create_dir_all`; `none` is the `Err` case. -/
def FileSystem.createDirAll (fs : FileSystem) (p : String) :
    Option FileSystem :=
  if fs.failDirs.contains p then none
  else some { fs with dirs := p :: fs.dirs }

/-- Item stream of `rustls_pemfile::certs`: one `Ok` per CERTIFICATE
    section, one `Err` per malformed section, other sections skipped. -/
def certItems : PemFile → List (Except Unit Nat)
  | [] => []
  | .cert d :: rest => .ok d :: certItems rest
  | .malformed :: rest => .error () :: certItems rest
  | .pkcs8Key _ :: rest => certItems rest
  | .otherSection :: rest => certItems rest

/-- Item stream of `rustls_pemfile::pkcs8_private_keys`. -/
def pkcs8Items : PemFile → List (Except Unit Nat)
  | [] => []
  | .pkcs8Key d :: rest => .ok d :: pkcs8Items rest
  | .malformed :: rest => .error () :: pkcs8Items rest
  | .cert _ :: rest => pkcs8Items rest
  | .otherSection :: rest => pkcs8Items rest

/-- `Iterator::collect::<Result<Vec<_>,_>>`: first error wins. -/
def collectResults : List (Except Unit Nat) → Except Unit (List Nat)
  | [] => .ok []
  | .error e :: _ => .error e
  | .ok x :: rest =>
    match collectResults rest with
    | .ok xs => .ok (x :: xs)
    | .error e => .error e

/-- `filter_map` keeping only `Ok` items (used on the cert stream). -/
def filterOk : List (Except Unit Nat) → List Nat
  | [] => []
  | .ok x :: rest => x :: filterOk rest
  | .error _ :: rest => filterOk rest

/-- Error taxonomy of the private-key readers.  The source returns
    strings / `anyhow` errors; constructors stand for the distinct
    messages: `openFailure` for a failed `File::open`, `parseFailure`
    for an error item propagated by `?` / `map_err` from the pemfile
    iterator, `noKeyFound` for "No PKCS8-encoded private key found!",
    `ambiguousKey` for "More than one PKCS8-encoded private key
    found!". -/
inductive KeyError where
  | openFailure
  | parseFailure
  | noKeyFound
  | ambiguousKey
deriving DecidableEq, Repr

/-- `extract_priv_key_from_pem` (certs.rs lines 159-171). -/
def extract_priv_key_from_pem (text : PemFile) : Except KeyError Nat :=
  match collectResults (pkcs8Items text) with
  | .error _ => .error .parseFailure
  | .ok keys =>
    match keys with
    | [] => .error .noKeyFound
    | [k] => .ok k
    | _ => .error .ambiguousKey

/-- `get_priv_key_from_path` (certs.rs lines 173-185). -/
def get_priv_key_from_path (fs : FileSystem) (path : String) :
    Except KeyError Nat :=
  match fs.read path with
  | none => .error .openFailure
  | some text =>
    match collectResults (pkcs8Items text) with
    | .error _ => .error .parseFailure
    | .ok keys =>
      match keys with
      | [] => .error .noKeyFound
      | [k] => .ok k
      | _ => .error .ambiguousKey

/-- `get_certs_from_path` (certs.rs lines 140-148): open the file, then
    keep every `Ok` item of the cert stream. -/
def get_certs_from_path (fs : FileSystem) (path : String) :
    Except Unit (List Nat) :=
  match fs.read path with
  | none => .error ()
  | some text => .ok (filterOk (certItems text))

/-- `extract_cert_from_pem_str` (certs.rs lines 150-157). -/
def extract_cert_from_pem_str (text : PemFile) : Except Unit (List Nat) :=
  .ok (filterOk (certItems text))

/-- Output of `rcgen::generate_simple_self_signed`: the PEM-serialised
    certificate and key-pair payloads. -/
structure GeneratedCert where
  certDer : Nat
  keyDer : Nat
deriving DecidableEq, Repr

/-- External-crate oracles used by the resolver. -/
structure Env where
  rcgenGenerate : String → Except String GeneratedCert
  anySupportedType : Nat → Option Nat

/-- The error string of certs.rs line 120. -/
def inconsistentRecordMsg : String :=
  "Missing key or crt for this hostname. Remove both if you want to generate a new set, or add the missing one."

/-- `generate_cert_if_not_exist` (certs.rs lines 109-137).  Returns the
    updated filesystem on `Ok`; write errors are discarded (`let _ =`). -/
def generate_cert_if_not_exist (env : Env) (hostname cert_path key_path : String)
    (fs : FileSystem) : Except String FileSystem :=
  let crt_exists := fs.fileExists cert_path
  let key_exists := fs.fileExists key_path
  if crt_exists && key_exists then .ok fs
  else if crt_exists != key_exists then .error inconsistentRecordMsg
  else
    match env.rcgenGenerate hostname with
    | .ok cert =>
        let fs1 := fs.write cert_path [.cert cert.certDer]
        let fs2 := fs1.write key_path [.pkcs8Key cert.keyDer]
        .ok fs2
    | .error e => .error e

/-- `rustls::sign::CertifiedKey`: chain plus signing key. -/
structure CertifiedKey where
  cert : List Nat
  key : Nat
deriving DecidableEq, Repr

/-- The own state of the resolver (certs.rs lines 6-12); the lets-encrypt
    manager is pure out-of-band issuance and carries no state the
    resolve path reads. -/
structure DynamicCertResolver where
  enable_lets_encrypt : Bool
  self_signed_cert_cache : List (String × CertifiedKey)
  lets_encrypt_signed_certs : List (String × CertifiedKey)
deriving DecidableEq, Repr

def odd_cache_base : String := ".odd_box_cache"

/-- `base_path.join(server_name)` of certs.rs line 58. -/
def hostDirPath (server_name : String) : String :=
  odd_cache_base ++ "/" ++ server_name

/-- The cert path format string of certs.rs line 65. -/
def certPath (server_name : String) : String :=
  odd_cache_base ++ "/" ++ server_name ++ "/cert.pem"

/-- The key path format string of certs.rs line 66. -/
def keyPath (server_name : String) : String :=
  odd_cache_base ++ "/" ++ server_name ++ "/key.pem"

/-- Everything a call to `resolve` produces: the returned bundle (if
    any), the resolver state after the call, the filesystem after the
    call. -/
structure ResolveOutcome where
  result : Option CertifiedKey
  resolver : DynamicCertResolver
  fs : FileSystem
deriving DecidableEq, Repr

/-- Body of `ResolvesServerCert::resolve` after SNI extraction
    (certs.rs lines 43-101), in the strict order of the source: LE tier
    (when enabled), self-signed tier, `create_dir_all`, generation,
    chain load, emptiness check, key load, signing-key construction,
    cache insert. -/
def resolveWithName (env : Env) (self : DynamicCertResolver)
    (fs : FileSystem) (server_name : String) : ResolveOutcome :=
  match (if self.enable_lets_encrypt then
           lookupA self.lets_encrypt_signed_certs server_name
         else none) with
  | some certified_key => ⟨some certified_key, self, fs⟩
  | none =>
  match lookupA self.self_signed_cert_cache server_name with
  | some certified_key => ⟨some certified_key, self, fs⟩
  | none =>
  match fs.createDirAll (hostDirPath server_name) with
  | none => ⟨none, self, fs⟩
  | some fs1 =>
  match generate_cert_if_not_exist env server_name (certPath server_name)
      (keyPath server_name) fs1 with
  | .error _ => ⟨none, self, fs1⟩
  | .ok fs2 =>
  match get_certs_from_path fs2 (certPath server_name) with
  | .error _ => ⟨none, self, fs2⟩
  | .ok cert_chain =>
  if cert_chain.isEmpty then ⟨none, self, fs2⟩
  else
  match get_priv_key_from_path fs2 (keyPath server_name) with
  | .error _ => ⟨none, self, fs2⟩
  | .ok private_key =>
  match env.anySupportedType private_key with
  | none => ⟨none, self, fs2⟩
  | some signing_key =>
    let result : CertifiedKey := ⟨cert_chain, signing_key⟩
    let self2 : DynamicCertResolver :=
      { self with
          self_signed_cert_cache := insertA self.self_signed_cert_cache server_name result }
    ⟨some result, self2, fs2⟩

/-- `ResolvesServerCert::resolve` (certs.rs lines 39-101); the argument
    is `client_hello.server_name()`, `none` meaning no SNI. -/
def resolve (env : Env) (self : DynamicCertResolver) (fs : FileSystem)
    (server_name : Option String) : ResolveOutcome :=
  match server_name with
  | none => ⟨none, self, fs⟩
  | some sn => resolveWithName env self fs sn

/-- The well-formed CERTIFICATE sections of a PEM file, in order: the
    chain a lenient parse should produce. -/
def certSections : PemFile → List Nat
  | [] => []
  | .cert d :: rest => d :: certSections rest
  | .pkcs8Key _ :: rest => certSections rest
  | .otherSection :: rest => certSections rest
  | .malformed :: rest => certSections rest

/-- The well-formed PKCS8 PRIVATE KEY sections of a PEM file, in order. -/
def pkcs8KeySections : PemFile → List Nat
  | [] => []
  | .pkcs8Key d :: rest => d :: pkcs8KeySections rest
  | .cert _ :: rest => pkcs8KeySections rest
  | .otherSection :: rest => pkcs8KeySections rest
  | .malformed :: rest => pkcs8KeySections rest

/-- Concrete environment for witnesses: generation always yields cert
    payload 1 and key payload 2, every key is supported as-is. -/
def envW : Env :=
  ⟨fun _ => .ok ⟨1, 2⟩, fun k => some k⟩

/-- Empty filesystem for witnesses. -/
def fsEmpty : FileSystem := ⟨[], [], [], []⟩

/- ------------------------------------------------------------------ -/
/- Helper lemmas                                                      -/
/- ------------------------------------------------------------------ -/

theorem lookupA_insertA_eq {α : Type} (m : List (String × α)) (k : String)
    (v : α) : lookupA (insertA m k v) k = some v := by
  simp [insertA, lookupA]

theorem certPath_ne_keyPath (sn : String) : certPath sn ≠ keyPath sn := by
  intro h
  have hlen := congrArg String.length h
  simp [certPath, keyPath, String.length_append] at hlen
  exact absurd hlen (by decide)

theorem write_failWrites (fs : FileSystem) (p : String) (c : PemFile) :
    (fs.write p c).failWrites = fs.failWrites := by
  unfold FileSystem.write
  split <;> rfl

theorem read_write_self (fs : FileSystem) (p : String) (c : PemFile)
    (h : fs.failWrites.contains p = false) :
    (fs.write p c).read p = some c := by
  have h' : p ∉ fs.failWrites := by simpa using h
  simp [FileSystem.write, FileSystem.read, insertA, lookupA, h']

theorem read_write_other (fs : FileSystem) (p q : String) (c : PemFile)
    (hpq : p ≠ q) : (fs.write p c).read q = fs.read q := by
  unfold FileSystem.write
  split
  · rfl
  · simp [FileSystem.read, insertA, lookupA, hpq]

theorem filterOk_certItems (l : PemFile) :
    filterOk (certItems l) = certSections l := by
  induction l with
  | nil => rfl
  | cons s rest ih =>
    cases s <;> simp [certItems, filterOk, certSections, ih]

theorem collectResults_pkcs8Items (l : PemFile)
    (hm : PemSection.malformed ∉ l) :
    collectResults (pkcs8Items l) = .ok (pkcs8KeySections l) := by
  induction l with
  | nil => rfl
  | cons s rest ih =>
    have hm' : PemSection.malformed ∉ rest :=
      fun hmem => hm (List.mem_cons_of_mem _ hmem)
    cases s with
    | malformed => exact absurd (List.mem_cons_self _ _) hm
    | cert d => simpa [pkcs8Items, pkcs8KeySections] using ih hm'
    | otherSection => simpa [pkcs8Items, pkcs8KeySections] using ih hm'
    | pkcs8Key d =>
      simp [pkcs8Items, pkcs8KeySections, collectResults, ih hm']

/-- On a fresh record (neither file present) with successful synthesis,
    generation returns `Ok` of the two (possibly failing, silently
    discarded) writes. -/
theorem generate_fresh (env : Env) (h cp kp : String) (fs : FileSystem)
    (g : GeneratedCert)
    (hc : fs.read cp = none) (hk : fs.read kp = none)
    (hg : env.rcgenGenerate h = .ok g) :
    generate_cert_if_not_exist env h cp kp fs =
      .ok ((fs.write cp [.cert g.certDer]).write kp [.pkcs8Key g.keyDer]) := by
  simp [generate_cert_if_not_exist, FileSystem.fileExists, hc, hk, hg]

/-- On a record with exactly one of the two files present, generation
    fails with the inconsistent-record message and changes nothing. -/
theorem generate_error_of_xor (env : Env) (h cp kp : String)
    (fs : FileSystem)
    (hxor : fs.fileExists cp ≠ fs.fileExists kp) :
    generate_cert_if_not_exist env h cp kp fs =
      .error inconsistentRecordMsg := by
  unfold generate_cert_if_not_exist
  cases hc : fs.fileExists cp <;> cases hk : fs.fileExists kp <;> simp_all

/- ------------------------------------------------------------------ -/
/- Claim theorems                                                     -/
/- ------------------------------------------------------------------ -/

/-- C2: with authority-backed (lets-encrypt) issuance enabled and an
    authority-issued bundle cached for the hostname, `resolve` returns
    that bundle immediately — for every state, including states whose
    self-signed tier also holds a bundle for the same hostname — so the
    authority tier is consulted first and takes precedence. -/
theorem C2_lets_encrypt_precedence (env : Env) (st : DynamicCertResolver)
    (fs : FileSystem) (sn : String) (b : CertifiedKey)
    (hEnable : st.enable_lets_encrypt = true)
    (hLE : lookupA st.lets_encrypt_signed_certs sn = some b) :
    resolve env st fs (some sn) = ⟨some b, st, fs⟩ := by
  simp [resolve, resolveWithName, hEnable, hLE]

/-- Witness for C2: both tiers hold a bundle for `"h"`; the
    authority-issued one (chain `[1]`) wins over the self-signed one
    (chain `[5]`). -/
theorem C2_witness :
    resolve envW ⟨true, [("h", ⟨[5], 6⟩)], [("h", ⟨[1], 2⟩)]⟩ fsEmpty
        (some "h") =
      ⟨some ⟨[1], 2⟩, ⟨true, [("h", ⟨[5], 6⟩)], [("h", ⟨[1], 2⟩)]⟩, fsEmpty⟩ :=
  C2_lets_encrypt_precedence envW _ fsEmpty "h" ⟨[1], 2⟩ (by decide)
    (by decide)

/-- C5: when both target paths already exist,
    `generate_cert_if_not_exist` is a no-op success: it returns `Ok`
    and the filesystem — in particular both files — is exactly
    unchanged, so pre-placed pairs are never regenerated. -/
theorem C5_generate_noop (env : Env) (h cp kp : String) (fs : FileSystem)
    (hc : fs.fileExists cp = true) (hk : fs.fileExists kp = true) :
    generate_cert_if_not_exist env h cp kp fs = .ok fs := by
  simp [generate_cert_if_not_exist, hc, hk]

/-- Witness for C5: a filesystem holding both files for `"h"`. -/
theorem C5_witness :
    generate_cert_if_not_exist envW "h" (certPath "h") (keyPath "h")
        ⟨[(certPath "h", [.cert 1]), (keyPath "h", [.pkcs8Key 2])], [], [], []⟩ =
      .ok ⟨[(certPath "h", [.cert 1]), (keyPath "h", [.pkcs8Key 2])], [], [], []⟩ :=
  C5_generate_noop envW "h" (certPath "h") (keyPath "h") _ (by decide)
    (by decide)

/-- C9: when neither file exists and certificate synthesis succeeds,
    `generate_cert_if_not_exist` returns `Ok` for every filesystem —
    in particular for filesystems on which one or both of the file
    writes fail — because the results of `std::fs::write` are
    discarded (`let _ =`) and never surface as a generation error. -/
theorem C9_write_failures_discarded (env : Env) (h cp kp : String)
    (fs : FileSystem) (g : GeneratedCert)
    (hc : fs.read cp = none) (hk : fs.read kp = none)
    (hg : env.rcgenGenerate h = .ok g) :
    generate_cert_if_not_exist env h cp kp fs =
      .ok ((fs.write cp [.cert g.certDer]).write kp [.pkcs8Key g.keyDer]) :=
  generate_fresh env h cp kp fs g hc hk hg

/-- Witness for C9: both writes fail (both paths are in `failWrites`),
    yet generation reports success and the filesystem keeps no file. -/
theorem C9_witness :
    generate_cert_if_not_exist envW "h" "c.pem" "k.pem"
        ⟨[], [], ["c.pem", "k.pem"], []⟩ =
      .ok ((FileSystem.write ⟨[], [], ["c.pem", "k.pem"], []⟩ "c.pem"
              [.cert 1]).write "k.pem" [.pkcs8Key 2]) :=
  C9_write_failures_discarded envW "h" "c.pem" "k.pem" _ ⟨1, 2⟩ (by decide)
    (by decide) rfl

/-- C8: certificate-chain parsing is lenient: for every file content,
    both `get_certs_from_path` (when the file opens) and
    `extract_cert_from_pem_str` return exactly the well-formed
    CERTIFICATE sections, skipping malformed blocks instead of failing;
    in particular a malformed block followed by one valid certificate
    yields a chain of length one. -/
theorem C8_lenient_cert_chain (fs : FileSystem) (path : String)
    (l : PemFile) (hread : fs.read path = some l) :
    get_certs_from_path fs path = .ok (certSections l) ∧
    extract_cert_from_pem_str l = .ok (certSections l) ∧
    ∀ d : Nat, extract_cert_from_pem_str [.malformed, .cert d] = .ok [d] := by
  refine ⟨?_, ?_, fun d => ?_⟩
  · simp [get_certs_from_path, hread, filterOk_certItems]
  · simp [extract_cert_from_pem_str, filterOk_certItems]
  · simp [extract_cert_from_pem_str, certItems, filterOk]

/-- Witness for C8: a file holding a malformed block then certificate
    `5` parses to the one-element chain `[5]`. -/
theorem C8_witness :
    get_certs_from_path ⟨[("p", [.malformed, .cert 5])], [], [], []⟩ "p" =
        .ok (certSections [.malformed, .cert 5]) ∧
    extract_cert_from_pem_str [.malformed, .cert 5] =
        .ok (certSections [.malformed, .cert 5]) ∧
    ∀ d : Nat, extract_cert_from_pem_str [.malformed, .cert d] = .ok [d] :=
  C8_lenient_cert_chain ⟨[("p", [.malformed, .cert 5])], [], [], []⟩ "p"
    [.malformed, .cert 5] (by decide)

/-- Counterexample to C7 as frozen: the one-section input consisting of
    a single malformed block contains zero PKCS8 private keys, yet
    private-key parsing fails with the propagated parse error
    (`collect::<Result<..>>?`), not with `NoKeyFound`. -/
theorem C7_counterexample :
    pkcs8KeySections [PemSection.malformed] = [] ∧
    extract_priv_key_from_pem [PemSection.malformed] =
      .error KeyError.parseFailure ∧
    extract_priv_key_from_pem [PemSection.malformed] ≠
      .error KeyError.noKeyFound := by
  refine ⟨rfl, rfl, ?_⟩
  intro h
  exact absurd (Except.error.inj h) (by decide)

/-- C7 (amended): for every PEM input all of whose sections are
    well-formed, private-key parsing fails with `NoKeyFound` on zero
    PKCS8 keys, succeeds with the unique key on exactly one, and fails
    with `AmbiguousKey` on two or more — multiplicity is never silently
    resolved — and `get_priv_key_from_path` agrees with the in-memory
    parser whenever the file opens.  (An input with a malformed section
    instead fails with the underlying parse error.) -/
theorem C7_key_multiplicity (l : PemFile)
    (hm : PemSection.malformed ∉ l) :
    (pkcs8KeySections l = [] →
      extract_priv_key_from_pem l = .error KeyError.noKeyFound) ∧
    (∀ k, pkcs8KeySections l = [k] → extract_priv_key_from_pem l = .ok k) ∧
    (2 ≤ (pkcs8KeySections l).length →
      extract_priv_key_from_pem l = .error KeyError.ambiguousKey) ∧
    (∀ fs path, FileSystem.read fs path = some l →
      get_priv_key_from_path fs path = extract_priv_key_from_pem l) := by
  have hc := collectResults_pkcs8Items l hm
  refine ⟨?_, ?_, ?_, ?_⟩
  · intro h0
    simp [extract_priv_key_from_pem, hc, h0]
  · intro k hk
    simp [extract_priv_key_from_pem, hc, hk]
  · intro h2
    match hsec : pkcs8KeySections l with
    | [] => rw [hsec] at h2; simp at h2
    | [k] => rw [hsec] at h2; simp at h2
    | a :: b :: rest => simp [extract_priv_key_from_pem, hc, hsec]
  · intro fs path hread
    simp [get_priv_key_from_path, extract_priv_key_from_pem, hread]

/-- Witness for C7: a two-key input is rejected as ambiguous, both in
    memory and through the path-based reader. -/
theorem C7_witness :
    (pkcs8KeySections [.pkcs8Key 3, .pkcs8Key 4] = [] →
      extract_priv_key_from_pem [.pkcs8Key 3, .pkcs8Key 4] =
        .error KeyError.noKeyFound) ∧
    (∀ k, pkcs8KeySections [.pkcs8Key 3, .pkcs8Key 4] = [k] →
      extract_priv_key_from_pem [.pkcs8Key 3, .pkcs8Key 4] = .ok k) ∧
    (2 ≤ (pkcs8KeySections [.pkcs8Key 3, .pkcs8Key 4]).length →
      extract_priv_key_from_pem [.pkcs8Key 3, .pkcs8Key 4] =
        .error KeyError.ambiguousKey) ∧
    (∀ fs path, FileSystem.read fs path = some [.pkcs8Key 3, .pkcs8Key 4] →
      get_priv_key_from_path fs path =
        extract_priv_key_from_pem [.pkcs8Key 3, .pkcs8Key 4]) :=
  C7_key_multiplicity [.pkcs8Key 3, .pkcs8Key 4] (by decide)

/-- C10: `resolve` never writes the authority-issued (lets-encrypt)
    tier: for every input the returned resolver state carries that tier
    unchanged, and the self-signed tier is either unchanged or extended
    by the single insert of the bundle for the resolved hostname. -/
theorem C10_le_tier_frame (env : Env) (st : DynamicCertResolver)
    (fs : FileSystem) (ch : Option String) :
    (resolve env st fs ch).resolver.lets_encrypt_signed_certs =
      st.lets_encrypt_signed_certs ∧
    ((resolve env st fs ch).resolver.self_signed_cert_cache =
        st.self_signed_cert_cache ∨
      ∃ sn ck, ch = some sn ∧
        (resolve env st fs ch).resolver.self_signed_cert_cache =
          insertA st.self_signed_cert_cache sn ck) := by
  cases ch with
  | none => exact ⟨rfl, Or.inl rfl⟩
  | some sn =>
    simp only [resolve, resolveWithName]
    repeat' split
    all_goals
      first
      | exact ⟨rfl, Or.inl rfl⟩
      | exact ⟨rfl, Or.inr ⟨sn, _, rfl, rfl⟩⟩

/-- C3: with authority-backed issuance disabled, the observable result
    of `resolve` — the returned bundle, the filesystem, and the
    self-signed tier — is identical across any two runs that differ
    only in the contents of the authority-issued tier; in particular
    a cached authority bundle is never returned. -/
theorem C3_isolation (env : Env) (st : DynamicCertResolver)
    (fs : FileSystem) (ch : Option String)
    (L1 L2 : List (String × CertifiedKey))
    (hdis : st.enable_lets_encrypt = false) :
    (resolve env { st with lets_encrypt_signed_certs := L1 } fs ch).result =
      (resolve env { st with lets_encrypt_signed_certs := L2 } fs ch).result ∧
    (resolve env { st with lets_encrypt_signed_certs := L1 } fs ch).fs =
      (resolve env { st with lets_encrypt_signed_certs := L2 } fs ch).fs ∧
    (resolve env { st with lets_encrypt_signed_certs := L1 }
        fs ch).resolver.self_signed_cert_cache =
      (resolve env { st with lets_encrypt_signed_certs := L2 }
        fs ch).resolver.self_signed_cert_cache := by
  cases ch with
  | none => exact ⟨rfl, rfl, rfl⟩
  | some sn =>
    simp only [resolve, resolveWithName, hdis, Bool.false_eq_true,
      if_false]
    cases h1 : lookupA st.self_signed_cert_cache sn with
    | some b => simp [h1]
    | none =>
      simp only [h1]
      cases h2 : fs.createDirAll (hostDirPath sn) with
      | none => simp [h2]
      | some fs1 =>
        simp only [h2]
        cases h3 : generate_cert_if_not_exist env sn (certPath sn)
            (keyPath sn) fs1 with
        | error e => simp [h3]
        | ok fs2 =>
          simp only [h3]
          cases h4 : get_certs_from_path fs2 (certPath sn) with
          | error e => simp [h4]
          | ok chain =>
            simp only [h4]
            cases h5 : chain.isEmpty with
            | true => simp [h5]
            | false =>
              cases h6 : get_priv_key_from_path fs2 (keyPath sn) with
              | error e => simp [h5, h6]
              | ok pk =>
                cases h7 : env.anySupportedType pk with
                | none => simp [h5, h6, h7]
                | some sk => simp [h5, h6, h7]

/-- Witness for C3: disabled authority, one run with an authority
    bundle cached for the requested hostname and one run with the tier
    empty, agree on result, filesystem and self-signed tier. -/
theorem C3_witness :
    (resolve envW ⟨false, [("h", ⟨[5], 6⟩)], [("h", ⟨[1], 2⟩)]⟩ fsEmpty
        (some "h")).result =
      (resolve envW ⟨false, [("h", ⟨[5], 6⟩)], []⟩ fsEmpty
        (some "h")).result ∧
    (resolve envW ⟨false, [("h", ⟨[5], 6⟩)], [("h", ⟨[1], 2⟩)]⟩ fsEmpty
        (some "h")).fs =
      (resolve envW ⟨false, [("h", ⟨[5], 6⟩)], []⟩ fsEmpty (some "h")).fs ∧
    (resolve envW ⟨false, [("h", ⟨[5], 6⟩)], [("h", ⟨[1], 2⟩)]⟩ fsEmpty
        (some "h")).resolver.self_signed_cert_cache =
      (resolve envW ⟨false, [("h", ⟨[5], 6⟩)], []⟩ fsEmpty
        (some "h")).resolver.self_signed_cert_cache :=
  C3_isolation envW ⟨false, [("h", ⟨[5], 6⟩)], []⟩ fsEmpty (some "h")
    [("h", ⟨[1], 2⟩)] [] rfl

/-- Counterexample to C4 as frozen: with the hostname already in the
    self-signed cache tier, `resolve` succeeds from cache even though
    exactly one on-disk file (the certificate) exists, so an
    inconsistent record alone does not make `resolve` fail. -/
theorem C4_counterexample :
    (FileSystem.read ⟨[(certPath "h.test", [.cert 1])], [], [], []⟩
        (certPath "h.test")).isSome = true ∧
    FileSystem.read ⟨[(certPath "h.test", [.cert 1])], [], [], []⟩
        (keyPath "h.test") = none ∧
    (resolve envW ⟨false, [("h.test", ⟨[1], 2⟩)], []⟩
        ⟨[(certPath "h.test", [.cert 1])], [], [], []⟩
        (some "h.test")).result = some ⟨[1], 2⟩ := by
  refine ⟨?_, ?_, ?_⟩ <;> decide

/-- C4 (amended): for every hostname that misses both cache tiers and
    whose on-disk record has exactly one of the two files, resolution
    fails with `InconsistentRecord`: generation returns the
    inconsistent-record error, `resolve` returns no bundle, and the
    files on disk are exactly as before the call. -/
theorem C4_inconsistent_record (env : Env) (st : DynamicCertResolver)
    (fs : FileSystem) (sn : String) (c : PemFile)
    (hLE : lookupA st.lets_encrypt_signed_certs sn = none)
    (hSS : lookupA st.self_signed_cert_cache sn = none)
    (hxor : (fs.read (certPath sn) = some c ∧ fs.read (keyPath sn) = none) ∨
            (fs.read (certPath sn) = none ∧ fs.read (keyPath sn) = some c)) :
    generate_cert_if_not_exist env sn (certPath sn) (keyPath sn) fs =
      .error inconsistentRecordMsg ∧
    (resolve env st fs (some sn)).result = none ∧
    (resolve env st fs (some sn)).fs.files = fs.files := by
  have hex : fs.fileExists (certPath sn) ≠ fs.fileExists (keyPath sn) := by
    rcases hxor with ⟨h1, h2⟩ | ⟨h1, h2⟩ <;>
      simp [FileSystem.fileExists, h1, h2]
  refine ⟨generate_error_of_xor env sn _ _ fs hex, ?_⟩
  simp only [resolve, resolveWithName, hLE, ite_self, hSS]
  cases h2 : fs.createDirAll (hostDirPath sn) with
  | none => simp
  | some fs1 =>
    have hfiles : fs1.files = fs.files := by
      revert h2
      unfold FileSystem.createDirAll
      split
      · intro hcontra
        cases hcontra
      · intro h2
        cases h2
        rfl
    have hex1 : fs1.fileExists (certPath sn) ≠ fs1.fileExists (keyPath sn) := by
      simpa [FileSystem.fileExists, FileSystem.read, hfiles] using hex
    have hgen1 := generate_error_of_xor env sn (certPath sn) (keyPath sn)
      fs1 hex1
    simp [hgen1, hfiles]

/-- Witness for C4 (amended): empty caches, only the certificate file
    on disk; generation reports the inconsistent record, resolve
    returns nothing, files are untouched. -/
theorem C4_witness :
    generate_cert_if_not_exist envW "h.test" (certPath "h.test")
        (keyPath "h.test") ⟨[(certPath "h.test", [.cert 1])], [], [], []⟩ =
      .error inconsistentRecordMsg ∧
    (resolve envW ⟨false, [], []⟩
        ⟨[(certPath "h.test", [.cert 1])], [], [], []⟩
        (some "h.test")).result = none ∧
    (resolve envW ⟨false, [], []⟩
        ⟨[(certPath "h.test", [.cert 1])], [], [], []⟩
        (some "h.test")).fs.files =
      FileSystem.files ⟨[(certPath "h.test", [.cert 1])], [], [], []⟩ :=
  C4_inconsistent_record envW ⟨false, [], []⟩
    ⟨[(certPath "h.test", [.cert 1])], [], [], []⟩ "h.test" [.cert 1]
    rfl rfl (Or.inl ⟨by decide, by decide⟩)

/-- C1: for a hostname missing both cache tiers and with neither file
    on disk, when directory creation, synthesis, both writes and
    signing-key construction succeed, `resolve` returns a bundle, both
    files exist on disk afterwards, and the self-signed tier maps the
    hostname to a bundle whose chain is exactly the written certificate
    and whose signing key is constructed from the written private
    key. -/
theorem C1_fresh_generation (env : Env) (st : DynamicCertResolver)
    (fs : FileSystem) (sn : String) (g : GeneratedCert) (sk : Nat)
    (hLE : lookupA st.lets_encrypt_signed_certs sn = none)
    (hSS : lookupA st.self_signed_cert_cache sn = none)
    (hc : fs.read (certPath sn) = none)
    (hk : fs.read (keyPath sn) = none)
    (hdirok : fs.failDirs.contains (hostDirPath sn) = false)
    (hwc : fs.failWrites.contains (certPath sn) = false)
    (hwk : fs.failWrites.contains (keyPath sn) = false)
    (hgen : env.rcgenGenerate sn = .ok g)
    (hsign : env.anySupportedType g.keyDer = some sk) :
    (resolve env st fs (some sn)).result = some ⟨[g.certDer], sk⟩ ∧
    lookupA (resolve env st fs (some sn)).resolver.self_signed_cert_cache
        sn = some ⟨[g.certDer], sk⟩ ∧
    (resolve env st fs (some sn)).fs.read (certPath sn) =
      some [.cert g.certDer] ∧
    (resolve env st fs (some sn)).fs.read (keyPath sn) =
      some [.pkcs8Key g.keyDer] := by
  have hne := certPath_ne_keyPath sn
  have hdirok' : hostDirPath sn ∉ fs.failDirs := by simpa using hdirok
  have hdir : fs.createDirAll (hostDirPath sn) =
      some { fs with dirs := hostDirPath sn :: fs.dirs } := by
    simp [FileSystem.createDirAll, hdirok']
  have hgenstep := generate_fresh env sn (certPath sn) (keyPath sn)
    { fs with dirs := hostDirPath sn :: fs.dirs } g hc hk hgen
  have h2c :
      ((FileSystem.write { fs with dirs := hostDirPath sn :: fs.dirs }
          (certPath sn) [.cert g.certDer]).write (keyPath sn)
          [.pkcs8Key g.keyDer]).read (certPath sn) =
        some [.cert g.certDer] := by
    rw [read_write_other _ _ _ _ (Ne.symm hne)]
    exact read_write_self _ _ _ hwc
  have h2k :
      ((FileSystem.write { fs with dirs := hostDirPath sn :: fs.dirs }
          (certPath sn) [.cert g.certDer]).write (keyPath sn)
          [.pkcs8Key g.keyDer]).read (keyPath sn) =
        some [.pkcs8Key g.keyDer] := by
    apply read_write_self
    rw [write_failWrites]
    exact hwk
  have hcert2 :
      get_certs_from_path
        ((FileSystem.write { fs with dirs := hostDirPath sn :: fs.dirs }
            (certPath sn) [.cert g.certDer]).write (keyPath sn)
            [.pkcs8Key g.keyDer]) (certPath sn) = .ok [g.certDer] := by
    simp [get_certs_from_path, h2c, certItems, filterOk]
  have hkey2 :
      get_priv_key_from_path
        ((FileSystem.write { fs with dirs := hostDirPath sn :: fs.dirs }
            (certPath sn) [.cert g.certDer]).write (keyPath sn)
            [.pkcs8Key g.keyDer]) (keyPath sn) = .ok g.keyDer := by
    simp [get_priv_key_from_path, h2k, pkcs8Items, collectResults]
  have houtcome : resolve env st fs (some sn) =
      ⟨some ⟨[g.certDer], sk⟩,
       { st with
           self_signed_cert_cache :=
             insertA st.self_signed_cert_cache sn ⟨[g.certDer], sk⟩ },
       (FileSystem.write { fs with dirs := hostDirPath sn :: fs.dirs }
           (certPath sn) [.cert g.certDer]).write (keyPath sn)
           [.pkcs8Key g.keyDer]⟩ := by
    simp [resolve, resolveWithName, hLE, hSS, hdir, hgenstep, hcert2,
      hkey2, hsign]
  rw [houtcome]
  exact ⟨rfl, lookupA_insertA_eq _ _ _, h2c, h2k⟩

/-- Witness for C1: hostname `"example.test"`, empty caches and empty
    filesystem, generation yielding cert payload 1 with key payload 2;
    resolution returns the bundle, writes both files, and caches it. -/
theorem C1_witness :
    (resolve envW ⟨false, [], []⟩ fsEmpty (some "example.test")).result =
      some ⟨[1], 2⟩ ∧
    lookupA (resolve envW ⟨false, [], []⟩ fsEmpty
        (some "example.test")).resolver.self_signed_cert_cache
        "example.test" = some ⟨[1], 2⟩ ∧
    (resolve envW ⟨false, [], []⟩ fsEmpty
        (some "example.test")).fs.read (certPath "example.test") =
      some [.cert 1] ∧
    (resolve envW ⟨false, [], []⟩ fsEmpty
        (some "example.test")).fs.read (keyPath "example.test") =
      some [.pkcs8Key 2] :=
  C1_fresh_generation envW ⟨false, [], []⟩ fsEmpty "example.test" ⟨1, 2⟩ 2
    rfl rfl rfl rfl rfl rfl rfl rfl rfl

/-- C6: if a call to `resolve` returns a bundle, an immediately
    repeated call with the resulting state returns the bit-identical
    bundle and leaves both the resolver state and the filesystem
    exactly unchanged — the repeat is served from cache without
    invoking generation or touching the filesystem. -/
theorem C6_resolve_idempotent (env : Env) (st : DynamicCertResolver)
    (fs : FileSystem) (ch : Option String) (ck : CertifiedKey)
    (st2 : DynamicCertResolver) (fs2 : FileSystem)
    (h : resolve env st fs ch = ⟨some ck, st2, fs2⟩) :
    resolve env st2 fs2 ch = ⟨some ck, st2, fs2⟩ := by
  cases ch with
  | none => simp [resolve] at h
  | some sn =>
    simp only [resolve] at h ⊢
    rw [resolveWithName] at h
    cases hLE : (if st.enable_lets_encrypt then
        lookupA st.lets_encrypt_signed_certs sn else none) with
    | some b =>
      rw [hLE] at h
      obtain ⟨hb, hst, hfs⟩ : some b = some ck ∧ st = st2 ∧ fs = fs2 := by
        simpa using h
      subst hst
      subst hfs
      simp [resolveWithName, hLE, hb]
    | none =>
      rw [hLE] at h
      cases hss : lookupA st.self_signed_cert_cache sn with
      | some b =>
        rw [hss] at h
        obtain ⟨hb, hst, hfs⟩ : some b = some ck ∧ st = st2 ∧ fs = fs2 := by
          simpa using h
        subst hst
        subst hfs
        simp [resolveWithName, hLE, hss, hb]
      | none =>
        simp only [hss] at h
        cases hdir : fs.createDirAll (hostDirPath sn) with
        | none => simp only [hdir] at h; simp at h
        | some fs1 =>
          simp only [hdir] at h
          cases hg : generate_cert_if_not_exist env sn (certPath sn)
              (keyPath sn) fs1 with
          | error e => simp only [hg] at h; simp at h
          | ok fsg =>
            simp only [hg] at h
            cases hcc : get_certs_from_path fsg (certPath sn) with
            | error e => simp only [hcc] at h; simp at h
            | ok chain =>
              simp only [hcc] at h
              cases hemp : chain.isEmpty with
              | true => simp only [hemp] at h; simp at h
              | false =>
                simp only [hemp, Bool.false_eq_true, if_false] at h
                cases hpk : get_priv_key_from_path fsg (keyPath sn) with
                | error e => simp only [hpk] at h; simp at h
                | ok pk =>
                  simp only [hpk] at h
                  cases hsk : env.anySupportedType pk with
                  | none => simp only [hsk] at h; simp at h
                  | some sk =>
                    simp only [hsk, ResolveOutcome.mk.injEq,
                      Option.some.injEq] at h
                    obtain ⟨hck, hst2, hfs2⟩ := h
                    subst hst2
                    subst hfs2
                    subst hck
                    simp [resolveWithName, hLE, lookupA_insertA_eq]

/-- Witness for C6: a self-signed cache hit repeats identically. -/
theorem C6_witness :
    resolve envW ⟨false, [("h", ⟨[1], 2⟩)], []⟩ fsEmpty (some "h") =
      ⟨some ⟨[1], 2⟩, ⟨false, [("h", ⟨[1], 2⟩)], []⟩, fsEmpty⟩ :=
  C6_resolve_idempotent envW ⟨false, [("h", ⟨[1], 2⟩)], []⟩ fsEmpty
    (some "h") ⟨[1], 2⟩ ⟨false, [("h", ⟨[1], 2⟩)], []⟩ fsEmpty (by decide)

end OddBox
